/-
Verification of the `grid` crate (a thin wrapper around iced's Column
widget producing a grid of cells) against its specification.

Shallow embedding: the iced toolkit types that the crate stores and
forwards (Pixels, container Style, Element) are modelled as explicit Lean
data; factories (`Box<dyn Fn() -> Cell>`) are Lean functions `Unit → Cell`;
the `From<&Grid> for Element` render impl becomes the pure function
`gridToElement`.
-/
import Mathlib

set_option linter.unusedVariables false

/-- iced's `Pixels` newtype (an f32 length). Only integral values occur in
this crate and no arithmetic is performed on them, so an `Int` payload is a
faithful model. `Pixels::default()` is zero. -/
structure Pixels where
  val : Int
deriving DecidableEq, Repr

def Pixels.default : Pixels := ⟨0⟩

/-- iced's `Color` as produced by `Color::from_rgb8` (the only constructor
used by this repository). -/
structure Color where
  r : Nat
  g : Nat
  b : Nat
deriving DecidableEq, Repr

def Color.from_rgb8 (r g b : Nat) : Color := ⟨r, g, b⟩

/-- iced's `Background`; the crate only ever builds the `Color` variant. -/
inductive Background where
  | color (c : Color)
deriving DecidableEq, Repr

/-- iced's `container::Style`. The crate stores and forwards it opaquely;
the only fields any code path of this repository writes are `background`
and `text_color` (the remaining toolkit fields keep their `Default` value
on every path, so they are omitted from the model). `Style::default()` has
both fields `None`. -/
structure Style where
  background : Option Background := none
  text_color : Option Color := none
deriving DecidableEq, Repr

def Style.default : Style := {}

/-- Settings accumulated on an iced `Container` by the builder methods the
crate uses: `Container::new` starts from shrink size, no centering, no
style override, zero padding; `center_x(w)` sets `width := w` and centers
horizontally; `center_y(h)` sets `height := h` and centers vertically;
`style(move |_| s)` installs the constant style function returning `s`
(modelled by storing `s`); `padding(p)` sets uniform padding `p`. -/
structure ContainerSettings where
  width : Option Pixels := none
  height : Option Pixels := none
  center_x : Bool := false
  center_y : Bool := false
  style : Option Style := none
  padding : Pixels := ⟨0⟩
deriving DecidableEq, Repr

/-- The visual-tree representation (iced's `Element`) as far as this crate
builds it: opaque leaf content of type `α`, containers, rows with uniform
spacing, and columns with uniform spacing. -/
inductive Node (α : Type) where
  | content (a : α)
  | container (settings : ContainerSettings) (child : Node α)
  | row (spacing : Pixels) (children : List (Node α))
  | column (spacing : Pixels) (children : List (Node α))

/-- `Cell<'a, M, T, R>(Element, Style)`: a tuple of the inner element and
the style of the cell. Field `el` is the `.0` component, `st` the `.1`. -/
structure Cell (α : Type) where
  el : Node α
  st : Style

/-- `impl From<E> for Cell`: create a cell from an element, with the
default style. -/
def Cell.fromElem {α : Type} (element : Node α) : Cell α :=
  ⟨element, Style.default⟩

/-- `Cell::style`: set the style of the cell (`self.1 = style.into()`). -/
def Cell.style {α : Type} (c : Cell α) (style : Style) : Cell α :=
  { c with st := style }

/-- `Factory<'a, M, T, R>(Box<dyn Fn() -> Cell + 'a>)`: a factory for
creating cells, modelled as a zero-argument function. -/
def Factory (α : Type) : Type := Unit → Cell α

/-- `Factory::from_element`: a factory that on every call clones the
element and pairs it with the default style. -/
def Factory.from_element {α : Type} (element : Node α) : Factory α :=
  fun _ => ⟨element, Style.default⟩

/-- `Factory::from_element_and_style`: a factory that on every call clones
the element and pairs it with the given style. -/
def Factory.from_element_and_style {α : Type} (element : Node α)
    (style : Style) : Factory α :=
  fun _ => ⟨element, style⟩

/-- `Factory::from_factory`: wrap an arbitrary cell-producing function. -/
def Factory.from_factory {α : Type} (factory : Unit → Cell α) : Factory α :=
  factory

/-- `Grid<'a, M, T, R>`: rows of factories plus the four scalar layout
parameters. -/
structure Grid (α : Type) where
  rows : List (List (Factory α))
  cell_width : Pixels
  cell_height : Pixels
  gutter : Pixels
  padding : Pixels

/-- `impl Default for Grid`: no rows, and zero width, height, gutter and
padding (each scalar is `Pixels::default()`). -/
def Grid.default (α : Type) : Grid α :=
  ⟨[], Pixels.default, Pixels.default, Pixels.default, Pixels.default⟩

/-- `Grid::new`: `Self::default()`. -/
def Grid.new (α : Type) : Grid α :=
  Grid.default α

/-- `Grid::with_row`: append one row, converting each item to a `Factory`
(`self.rows.push(row.into_iter().map(Into::into).collect())`). The Rust
`Into<Factory>` instance dispatch is modelled by the explicit conversion
argument `toF`. -/
def Grid.with_row {α β : Type} (g : Grid α) (toF : β → Factory α)
    (row : List β) : Grid α :=
  { g with rows := g.rows ++ [row.map toF] }

/-- `Grid::with_rows`: append multiple rows in one call
(`self.rows.extend(rows.into_iter().map(|row| row.into_iter().map(Into::into).collect()))`). -/
def Grid.with_rows {α β : Type} (g : Grid α) (toF : β → Factory α)
    (rows : List (List β)) : Grid α :=
  { g with rows := g.rows ++ rows.map (fun row => row.map toF) }

/-- `Grid::cell_width` setter (primed to avoid clashing with the field). -/
def Grid.cell_width' {α : Type} (g : Grid α) (cell_width : Pixels) : Grid α :=
  { g with cell_width := cell_width }

/-- `Grid::cell_height` setter. -/
def Grid.cell_height' {α : Type} (g : Grid α) (cell_height : Pixels) : Grid α :=
  { g with cell_height := cell_height }

/-- `Grid::gutter` setter. -/
def Grid.gutter' {α : Type} (g : Grid α) (gutter : Pixels) : Grid α :=
  { g with gutter := gutter }

/-- `Grid::padding` setter. -/
def Grid.padding' {α : Type} (g : Grid α) (padding : Pixels) : Grid α :=
  { g with padding := padding }

/-- The container settings produced by the render impl's builder chain
`Container::new(..).center_x(*cell_width).center_y(*cell_height).style(move |_| style)`. -/
def cellSettings (cell_width cell_height : Pixels) (style : Style) : ContainerSettings :=
  { width := some cell_width, center_x := true,
    height := some cell_height, center_y := true,
    style := some style }

/-- The per-cell leaf container built inside the render impl:
`let Cell(element, style) = column.0();
 Container::new(element).center_x(*cell_width).center_y(*cell_height)
   .style(move |_| style).into()`. -/
def leafNode {α : Type} (cell_width cell_height : Pixels)
    (column : Factory α) : Node α :=
  let cell := column ()
  Node.container (cellSettings cell_width cell_height cell.st) cell.el

/-- `impl From<&Grid> for Element`: rows map to `Row`s of leaf containers
with spacing `gutter`, collected into a `Column` with spacing `gutter`,
wrapped in a `Container` with padding `padding`. -/
def gridToElement {α : Type} (g : Grid α) : Node α :=
  Node.container { padding := g.padding }
    (Node.column g.gutter
      (g.rows.map fun row =>
        Node.row g.gutter
          (row.map fun column => leafNode g.cell_width g.cell_height column)))

/-- Children of a composite node (row or column). -/
def Node.children {α : Type} : Node α → List (Node α)
  | .row _ cs => cs
  | .column _ cs => cs
  | _ => []

/-- Spacing of a composite node (row or column). -/
def Node.spacingOf {α : Type} : Node α → Option Pixels
  | .row s _ => some s
  | .column s _ => some s
  | _ => none

/-- Settings of a container node. -/
def Node.settingsOf {α : Type} : Node α → Option ContainerSettings
  | .container s _ => some s
  | _ => none

/-- Child of a container node. -/
def Node.childOf {α : Type} : Node α → Option (Node α)
  | .container _ c => some c
  | _ => none

/-- The row-composites of a rendered grid: the children of the column
inside the outermost container produced by `gridToElement`. -/
def renderRowComposites {α : Type} (g : Grid α) : List (Node α) :=
  match gridToElement g with
  | .container _ body => body.children
  | _ => []

/-- The content-erased part of a render: per row-composite, the list of
leaf-container settings (size, centering, style). Captures "shape and
applied styles" while ignoring factory-produced content. -/
def renderStyleShape {α : Type} (g : Grid α) : List (List (Option ContainerSettings)) :=
  (renderRowComposites g).map fun rc => rc.children.map Node.settingsOf

/- ---------------------------------------------------------------------
The demo binary (`src/bin/grid.rs`): a calendar grid with one header row
and the days 1..=31 chunked into weeks of 7.
--------------------------------------------------------------------- -/

/-- Content occurring in the demo binary: header strings and
`Text::new(day)` widgets. -/
inductive DemoContent where
  | text (s : String)
  | num (n : Int)
deriving DecidableEq, Repr

/-- Itertools' `chunks(n)` (auxiliary accumulator form, structural in the
input list): groups of exactly `n` items, the final group possibly
shorter. -/
def chunksAcc {β : Type} (n : Nat) : List β → List β → List (List β)
  | [], acc => if acc.isEmpty then [] else [acc.reverse]
  | x :: xs, acc =>
    if acc.length + 1 = n then (acc.reverse ++ [x]) :: chunksAcc n xs []
    else chunksAcc n xs (x :: acc)

/-- Itertools' `chunks(n)` as used by the demo binary. -/
def chunksOf {β : Type} (n : Nat) (l : List β) : List (List β) :=
  chunksAcc n l []

/-- The style given to the "today" cell in the demo: red background,
white text, remaining fields default. -/
def redStyle : Style :=
  { background := some (.color (Color.from_rgb8 255 0 0)),
    text_color := some (Color.from_rgb8 255 255 255) }

/-- The style given to every other day cell in the demo: white background,
black text, remaining fields default. -/
def whiteStyle : Style :=
  { background := some (.color (Color.from_rgb8 255 255 255)),
    text_color := some (Color.from_rgb8 0 0 0) }

/-- The day factory built in the demo's `with_rows` argument:
`Factory::from_factory(move || { let red = day == today;
  Cell::from(Text::new(day)).style(if red { .. } else { .. }) })`. -/
def dayFactory (today day : Int) : Factory DemoContent :=
  Factory.from_factory fun _ =>
    let red := day == today
    (Cell.fromElem (.content (.num day))).style
      (if red then redStyle else whiteStyle)

/-- The demo's header row items. -/
def demoHeader : List String :=
  ["Sun", "Mon", "Tue", "Wed", "Thu", "Fri", "Sat"]

/-- The demo's day range `1..=31`. -/
def days : List Int :=
  (List.range 31).map fun i => (i : Int) + 1

/-- The grid built in the demo binary's `Default for State` impl (with the
hard-coded `today = 10` generalized to a parameter, as the spec describes
it as caller-supplied): header row of 7 strings, days 1..=31 chunked into
rows of 7, cell height 50, cell width 50, padding 5, gutter left default. -/
def demoGrid (today : Int) : Grid DemoContent :=
  ((((Grid.new DemoContent).with_row
        (fun s => Factory.from_element (.content (.text s))) demoHeader).with_rows
      (fun f => f)
      (chunksOf 7 (days.map fun day => dayFactory today day))).cell_height'
    ⟨50⟩).cell_width' ⟨50⟩ |>.padding' ⟨5⟩

/- ---------------------------------------------------------------------
Concrete grids used by witnesses.
--------------------------------------------------------------------- -/

/-- A concrete factory used by witnesses. -/
def wF : Factory String := Factory.from_element (.content "a")

/-- A concrete one-cell grid used by witnesses. -/
def wGrid : Grid String :=
  ((Grid.new String).with_row (fun f => f) [wF]).gutter' ⟨3⟩

/-- A one-cell grid whose factory produces content "b" (same default
style as `wGrid`'s factory, different content). -/
def wGridB : Grid String :=
  ((Grid.new String).with_row (fun f => f)
    [Factory.from_element (.content "b")]).gutter' ⟨3⟩

/- ---------------------------------------------------------------------
Theorems.
--------------------------------------------------------------------- -/

/-- Helper: pointwise-equal maps of `Forall₂`-related lists are equal. -/
theorem forall₂_map_eq {γ δ ε : Type} {l₁ : List γ} {l₂ : List δ}
    (f₁ : γ → ε) (f₂ : δ → ε)
    (h : List.Forall₂ (fun a b => f₁ a = f₂ b) l₁ l₂) :
    l₁.map f₁ = l₂.map f₂ := by
  induction h with
  | nil => rfl
  | cons h₁ h₂ ih => simp [h₁, ih]

/-- Claim C1: rendering a Grid produces a vertical composite whose
row-composite count equals the stored row count, and row-composite `i`
holds exactly as many leaf containers as row `i` holds factories; ragged
rows are not padded. -/
theorem render_preserves_row_shape {α : Type} (g : Grid α) :
    (renderRowComposites g).length = g.rows.length ∧
    (renderRowComposites g).map (fun rc => rc.children.length) =
      g.rows.map List.length ∧
    gridToElement g = Node.container { padding := g.padding }
      (Node.column g.gutter (renderRowComposites g)) := by
  refine ⟨?_, ?_, ?_⟩ <;>
    simp [renderRowComposites, gridToElement, Node.children, List.map_map,
      Function.comp]

/-- Claim C2: the leaf container at logical position (r, c) of a render is
exactly the leaf built from the c-th factory stored in the r-th row; rows
and cells are traversed in stored insertion order (render is a pure
function of the Grid, so this holds identically on every invocation). -/
theorem render_order_insertion {α : Type} (g : Grid α) (r c : Nat)
    (f : Factory α)
    (h : g.rows[r]?.bind (fun row => row[c]?) = some f) :
    (renderRowComposites g)[r]?.bind (fun rc => rc.children[c]?) =
      some (leafNode g.cell_width g.cell_height f) := by
  rcases hr : g.rows[r]? with _ | row
  · rw [hr] at h
    simp at h
  · rw [hr] at h
    simp only [Option.some_bind] at h
    simp [renderRowComposites, gridToElement, Node.children,
      List.getElem?_map, hr, h]

/-- Witness for C2 on a concrete one-cell grid. -/
theorem render_order_insertion_witness :
    (renderRowComposites wGrid)[0]?.bind (fun rc => rc.children[0]?) =
      some (leafNode wGrid.cell_width wGrid.cell_height wF) :=
  render_order_insertion wGrid 0 0 wF rfl

/-- Claim C3 counterexample: the demo calendar grid (today = 10) renders
to 6 row-composites, not 5 as the claim states. -/
theorem demo_grid_not_five_row_composites :
    ¬ ((renderRowComposites (demoGrid 10)).length = 5) := by decide

/-- Claim C3 (amended): the demo calendar grid renders to exactly 6
row-composites — row 0 the 7-cell header, rows 1–4 with 7 day cells each,
row 5 with 3 day cells — every cell a 50×50 centered container; the day
cell whose day equals the caller-supplied `today` carries the
red-background/white-text style and every other day cell the
white-background/black-text style (header cells carry the default style). -/
theorem demo_grid_six_rows_today_style (today : Int) :
    (renderRowComposites (demoGrid today)).map (fun rc => rc.children.length) =
      [7, 7, 7, 7, 7, 3] ∧
    renderStyleShape (demoGrid today) =
      List.replicate 7 (some (cellSettings ⟨50⟩ ⟨50⟩ Style.default)) ::
        chunksOf 7 (days.map fun d =>
          some (cellSettings ⟨50⟩ ⟨50⟩
            (if d == today then redStyle else whiteStyle))) :=
  ⟨rfl, rfl⟩

/-- Claim C4: plain content conversion (the `From<E>` impls for `Cell` and
`Factory`, i.e. `from_element`) always yields the toolkit default style,
and `from_element_and_style` always yields exactly the supplied style with
the content unchanged, on every factory invocation. -/
theorem content_conversion_styles {α : Type} (element : Node α) (s : Style) :
    Cell.fromElem element = ⟨element, Style.default⟩ ∧
    Factory.from_element element () = ⟨element, Style.default⟩ ∧
    Factory.from_element_and_style element s () = ⟨element, s⟩ :=
  ⟨rfl, rfl, rfl⟩

/-- Claim C5: the stored gutter is the spacing of every row-composite and
of the column of rows; the stored padding appears exactly once, on the
outermost container (whose other settings are untouched defaults), and
every leaf container keeps zero padding. -/
theorem gutter_padding_forwarding {α : Type} (g : Grid α) :
    (renderRowComposites g).map Node.spacingOf =
      List.replicate g.rows.length (some g.gutter) ∧
    (gridToElement g).childOf.bind Node.spacingOf = some g.gutter ∧
    (gridToElement g).settingsOf = some { padding := g.padding } ∧
    (renderRowComposites g).map (fun rc => rc.children.map fun l =>
        l.settingsOf.map ContainerSettings.padding) =
      g.rows.map fun row => row.map fun _ => some (⟨0⟩ : Pixels) := by
  refine ⟨?_, ?_, ?_, ?_⟩ <;>
    simp [renderRowComposites, gridToElement, Node.children, Node.spacingOf,
      Node.settingsOf, Node.childOf, leafNode, cellSettings, List.map_map,
      Function.comp_def]

/-- Claim C6: two renders with the same layout parameters whose factories
agree pointwise on the produced style (content may differ between passes)
yield composites of identical shape — same row count, same per-row
leaf-container counts — and identical leaf-container settings (size,
centering, style) at every position. -/
theorem render_structural_determinism {α : Type} (g₁ g₂ : Grid α)
    (hw : g₁.cell_width = g₂.cell_width)
    (hh : g₁.cell_height = g₂.cell_height)
    (hrows : List.Forall₂ (List.Forall₂ fun f₁ f₂ => (f₁ ()).st = (f₂ ()).st)
      g₁.rows g₂.rows) :
    renderStyleShape g₁ = renderStyleShape g₂ := by
  have hshape : ∀ (g : Grid α), renderStyleShape g =
      g.rows.map fun row => row.map fun f =>
        some (cellSettings g.cell_width g.cell_height ((f ()).st)) := by
    intro g
    simp [renderStyleShape, renderRowComposites, gridToElement, Node.children,
      Node.settingsOf, leafNode, List.map_map, Function.comp]
  rw [hshape, hshape]
  refine forall₂_map_eq _ _ (hrows.imp ?_)
  intro row₁ row₂ hrow
  refine forall₂_map_eq _ _ (hrow.imp ?_)
  intro f₁ f₂ hf
  rw [hw, hh, hf]

/-- Witness for C6: two one-cell grids with different content but equal
styles render to the same style shape. -/
theorem render_structural_determinism_witness :
    renderStyleShape wGrid = renderStyleShape wGridB :=
  render_structural_determinism wGrid wGridB rfl rfl
    (List.Forall₂.cons (List.Forall₂.cons rfl List.Forall₂.nil)
      List.Forall₂.nil)

/-- Claim C7: `Cell::style` fully replaces the style and leaves the
content unchanged. -/
theorem cell_style_full_replacement {α : Type} (c : Cell α) (s : Style) :
    (c.style s).st = s ∧ (c.style s).el = c.el :=
  ⟨rfl, rfl⟩

/-- Claim C8: `with_row` appends exactly one row at the end and leaves the
four scalar parameters unchanged; each scalar setter changes only its own
field and leaves the rows and the other three scalars unchanged. -/
theorem builder_frame_conditions {α β : Type} (toF : β → Factory α)
    (g : Grid α) (row : List β) (v : Pixels) :
    (g.with_row toF row).rows = g.rows ++ [row.map toF] ∧
    (g.with_row toF row).cell_width = g.cell_width ∧
    (g.with_row toF row).cell_height = g.cell_height ∧
    (g.with_row toF row).gutter = g.gutter ∧
    (g.with_row toF row).padding = g.padding ∧
    (g.cell_width' v).rows = g.rows ∧
    (g.cell_width' v).cell_width = v ∧
    (g.cell_width' v).cell_height = g.cell_height ∧
    (g.cell_width' v).gutter = g.gutter ∧
    (g.cell_width' v).padding = g.padding ∧
    (g.cell_height' v).rows = g.rows ∧
    (g.cell_height' v).cell_width = g.cell_width ∧
    (g.cell_height' v).cell_height = v ∧
    (g.cell_height' v).gutter = g.gutter ∧
    (g.cell_height' v).padding = g.padding ∧
    (g.gutter' v).rows = g.rows ∧
    (g.gutter' v).cell_width = g.cell_width ∧
    (g.gutter' v).cell_height = g.cell_height ∧
    (g.gutter' v).gutter = v ∧
    (g.gutter' v).padding = g.padding ∧
    (g.padding' v).rows = g.rows ∧
    (g.padding' v).cell_width = g.cell_width ∧
    (g.padding' v).cell_height = g.cell_height ∧
    (g.padding' v).gutter = g.gutter ∧
    (g.padding' v).padding = v :=
  ⟨rfl, rfl, rfl, rfl, rfl, rfl, rfl, rfl, rfl, rfl, rfl, rfl, rfl, rfl,
    rfl, rfl, rfl, rfl, rfl, rfl, rfl, rfl, rfl, rfl, rfl⟩

/-- Claim C9: `with_rows` equals a left fold of `with_row` over the rows,
using the same per-item conversion. -/
theorem with_rows_is_fold_of_with_row {α β : Type} (toF : β → Factory α)
    (g : Grid α) (rows : List (List β)) :
    g.with_rows toF rows =
      rows.foldl (fun acc row => acc.with_row toF row) g := by
  induction rows generalizing g with
  | nil => simp [Grid.with_rows]
  | cons r rs ih =>
    rw [List.foldl_cons, ← ih]
    simp [Grid.with_rows, Grid.with_row]

/-- Claim C10: `Grid::new` equals `Grid::default`, has no rows and all
four scalars zero, and renders to an empty vertical composite with zero
spacing inside a zero-padding container. -/
theorem new_grid_empty_zero (α : Type) :
    Grid.new α = Grid.default α ∧
    (Grid.new α).rows = [] ∧
    (Grid.new α).cell_width = ⟨0⟩ ∧
    (Grid.new α).cell_height = ⟨0⟩ ∧
    (Grid.new α).gutter = ⟨0⟩ ∧
    (Grid.new α).padding = ⟨0⟩ ∧
    gridToElement (Grid.new α) =
      Node.container { padding := ⟨0⟩ } (Node.column ⟨0⟩ []) :=
  ⟨rfl, rfl, rfl, rfl, rfl, rfl, rfl⟩
